import Mathlib

/-!
Verification of the request-dispatch and authentication core of the
ovpn-connexa Python client (cloudconnexa package).

The definitions below are a shallow embedding of:
- CloudConnexaClient._request        (src/cloudconnexa/client/base.py)
- Authenticator                      (src/cloudconnexa/client/auth.py)
- NetworkService.list normalization  (src/cloudconnexa/services/networks/service.py)
- parse_datetime                     (src/cloudconnexa/services/networks/service.py,
                                      src/cloudconnexa/services/users/service.py)
- the exported class names of cloudconnexa.utils.errors and
  cloudconnexa.exceptions, and the names base.py imports.

Python dicts parsed from JSON are modelled by the inductive type J;
machine floats for times are modelled by Int seconds (no claim depends
on sub-second precision); the HTTP layer is modelled by passing the
response (or the transport exception) as an explicit argument.
-/

namespace CloudConnexa

/-- A parsed JSON value, as produced by response.json() in the source. -/
inductive J where
  | null : J
  | bool : Bool → J
  | num : Int → J
  | str : String → J
  | arr : List J → J
  | obj : List (String × J) → J
deriving Repr

/-- Python dict .get(key) on a JSON object: first binding of the key, none on
a missing key or a non-object value (the source only applies .get to dicts). -/
def J.getField : J → String → Option J
  | .obj fields, k => fields.lookup k
  | _, _ => none

/-- An HTTP response as _request observes it: status code, parsed JSON body
(none when response.content is empty), and the Retry-After header if any. -/
structure HttpResponse where
  status_code : Nat
  body : Option J
  retry_after_header : Option String

/-- Outcome of session.request: a response, or a requests.RequestException
carrying its message string. -/
inductive SendOutcome where
  | ok : HttpResponse → SendOutcome
  | exn : String → SendOutcome

/-- The typed errors _request raises, recording the constructor used and the
arguments the call site passes. rateLimitError carries an optional retry-after
argument (none at the call in base.py, which passes only the message and the
raw response); resourceNotFoundError records the resource_type and resource_id
arguments and the status_code 404 that the class constructor in
cloudconnexa/utils/errors.py fixes; apiError records the message and the
optional original_error argument (the raw response argument, which no claim
refers to, is not modelled). -/
inductive DispatchError where
  | rateLimitError : String → Option Int → DispatchError
  | resourceNotFoundError : String → String → Nat → DispatchError
  | validationError : String → DispatchError
  | apiError : String → Option String → DispatchError
deriving Repr

/-- Result of _request: True on 204, otherwise a parsed JSON body. -/
inductive RequestResult where
  | boolResult : Bool → RequestResult
  | jsonResult : J → RequestResult
deriving Repr

/-- Python str.split with an explicit one-character separator: splits at
every occurrence, keeping empty pieces, and yields one (empty) piece for the
empty string. -/
def py_split (sep : Char) : List Char → List (List Char)
  | [] => [[]]
  | c :: cs =>
    if c = sep then [] :: py_split sep cs
    else
      match py_split sep cs with
      | [] => [[c]]
      | g :: gs => (c :: g) :: gs

/-- Embedding of path.split applied to the slash separator followed by taking
the element at index -1, as at base.py line 303 (Python str.split never
returns an empty list, so the default of getLastD is never used). -/
def lastSegment (path : String) : String :=
  ⟨(py_split '/' path.data).getLastD []⟩

/-- Embedding of error_data.get applied to key error, then .get applied to
key message with default Unknown error (base.py lines 311-312); error_data
is the parsed body, or an empty dict when the body is empty. A non-string
message value would be interpolated through str() in the source; no claim
touches that case and it is mapped to the default here. -/
def errMessage (body : Option J) : String :=
  match ((body.getD (J.obj [])).getField "error") with
  | some e =>
    match e.getField "message" with
    | some (J.str m) => m
    | _ => "Unknown error"
  | none => "Unknown error"

/-- Embedding of the response-classification part of CloudConnexaClient._request
(base.py lines 285-319): 204 returns True; 429 raises RateLimitError with
message Rate limit exceeded and no further data; 404 raises
ResourceNotFoundError with the last path segment as resource_id (status_code
404 is fixed by the class constructor); 400 raises ValidationError with
message Invalid request; any other status of at least 400 raises APIError with
the message drawn from error.message of the body; otherwise the parsed body is
returned, an empty dict when the body is empty. A requests.RequestException is
caught and re-raised as APIError with no original_error argument. -/
def dispatchRequest (path : String) (outcome : SendOutcome) :
    Except DispatchError RequestResult :=
  match outcome with
  | .exn e => .error (.apiError ("Request failed: " ++ e) none)
  | .ok response =>
    if response.status_code = 204 then
      .ok (.boolResult true)
    else if response.status_code = 429 then
      .error (.rateLimitError "Rate limit exceeded" none)
    else if response.status_code = 404 then
      .error (.resourceNotFoundError ("Resource not found: " ++ path)
        (lastSegment path) 404)
    else if response.status_code = 400 then
      .error (.validationError "Invalid request")
    else if 400 ≤ response.status_code then
      .error (.apiError ("API request failed: " ++ errMessage response.body) none)
    else
      .ok (.jsonResult (response.body.getD (J.obj [])))

/-- Value of a decimal digit character, none for any other character. -/
def digitVal (c : Char) : Option Nat :=
  if c = '0' then some 0 else if c = '1' then some 1
  else if c = '2' then some 2 else if c = '3' then some 3
  else if c = '4' then some 4 else if c = '5' then some 5
  else if c = '6' then some 6 else if c = '7' then some 7
  else if c = '8' then some 8 else if c = '9' then some 9 else none

/-- Conversion of a string of decimal digits to an integer, none when the
string is empty or holds a non-digit: a model of int() applied to a
nonnegative numeral such as the value of a Retry-After header. -/
def py_parse_nonneg_int (s : String) : Option Int :=
  if s.data.isEmpty then none
  else
    s.data.foldl
      (fun acc c =>
        match acc, digitVal c with
        | some a, some d => some (a * 10 + (d : Int))
        | _, _ => none)
      (some 0)

/-- Formalisation of the retry-after hint as the spec describes it, for
comparison with what dispatchRequest raises: from the retry_after field of
the error object of the JSON body first, else the Retry-After header parsed
as an integer, else none. This definition follows the words of the spec, not
the source of _request, which extracts no such hint. -/
def specRetryAfterHint (r : HttpResponse) : Option Int :=
  match ((r.body.getD (J.obj [])).getField "error") with
  | some e =>
    match e.getField "retry_after" with
    | some (J.num n) => some n
    | _ => r.retry_after_header.bind py_parse_nonneg_int
  | none => r.retry_after_header.bind py_parse_nonneg_int

/-- Stored token state of the Authenticator (auth.py lines 35-36): the token
string and the expiry instant, each initially None. Python falsiness of the
stored values (empty string, zero instant) matters in the source, so both
are kept as written, not collapsed. -/
structure AuthState where
  token : Option String
  token_expiry : Option Int
deriving Repr, DecidableEq

/-- Python truthiness of an optional string: None and the empty string are
falsy. -/
def pyTruthyStr : Option String → Bool
  | none => false
  | some s => !s.isEmpty

/-- Python truthiness of an optional number: None and zero are falsy. -/
def pyTruthyNum : Option Int → Bool
  | none => false
  | some x => decide (x ≠ 0)

/-- Embedding of Authenticator._is_token_valid (auth.py lines 66-76): false
when the token or the expiry is falsy, else true exactly when now is below
the expiry minus the 30-second buffer. -/
def is_token_valid (now : Int) (s : AuthState) : Bool :=
  if !pyTruthyStr s.token || !pyTruthyNum s.token_expiry then
    false
  else
    decide (now < s.token_expiry.getD 0 - 30)

/-- Outcome of a POST to the oauth2 token endpoint: a 200 response with its
parsed access_token and expires_in fields, a response with another status, or
a requests.RequestException with its message. -/
inductive TokenResponse where
  | success : String → Int → TokenResponse
  | httpError : Nat → TokenResponse
  | netExn : String → TokenResponse

/-- The AuthenticationError raised by _acquire_token, with the arguments the
call sites pass: message, optional status_code, optional original_error. -/
inductive AuthErr where
  | authenticationError : String → Option Nat → Option String → AuthErr
deriving Repr, DecidableEq

/-- Embedding of Authenticator._refresh_token (auth.py lines 113-146): on a
200 response the stored token and expiry are replaced and True is returned;
a non-200 response or a network exception is logged and False is returned
with the state untouched. -/
def refresh_token (now : Int) (s : AuthState) (resp : TokenResponse) :
    AuthState × Bool :=
  match resp with
  | .success t expires_in => (⟨some t, some (now + expires_in)⟩, true)
  | .httpError _ => (s, false)
  | .netExn _ => (s, false)

/-- Embedding of Authenticator._acquire_token (auth.py lines 78-111): on a
200 response the new state is built from the parsed body; a non-200 response
raises AuthenticationError with the status code; a network exception raises
AuthenticationError wrapping the original exception. No state is written on
either failure path. -/
def acquire_token (now : Int) (resp : TokenResponse) :
    Except AuthErr AuthState :=
  match resp with
  | .success t expires_in => .ok ⟨some t, some (now + expires_in)⟩
  | .httpError status =>
    .error (.authenticationError ("Failed to acquire token: " ++ toString status)
      (some status) none)
  | .netExn e =>
    .error (.authenticationError ("Failed to acquire token: " ++ e) none (some e))

/-- An HTTP request the Authenticator issues, in order of issue. -/
inductive NetCall where
  | refreshCall : NetCall
  | acquireCall : NetCall
deriving Repr, DecidableEq

/-- What a call to ensure_authenticated leaves behind: whether it returned or
raised, the stored state afterwards, and the network calls made in order. -/
structure EnsureResult where
  outcome : Except AuthErr Unit
  state : AuthState
  calls : List NetCall
deriving Repr

/-- Embedding of Authenticator.ensure_authenticated (auth.py lines 47-64):
return at once on a valid token; else, when a token is present (truthy), try
one refresh and return on success; else fall through to full acquisition,
whose failure raises. The two TokenResponse arguments stand for what the network
would answer to the refresh POST and to the acquisition POST. -/
def ensure_authenticated (now : Int) (s : AuthState)
    (refreshResp acquireResp : TokenResponse) : EnsureResult :=
  if is_token_valid now s then
    ⟨.ok (), s, []⟩
  else if pyTruthyStr s.token then
    match refresh_token now s refreshResp with
    | (s2, true) => ⟨.ok (), s2, [.refreshCall]⟩
    | (s2, false) =>
      match acquire_token now acquireResp with
      | .ok s3 => ⟨.ok (), s3, [.refreshCall, .acquireCall]⟩
      | .error e => ⟨.error e, s2, [.refreshCall, .acquireCall]⟩
  else
    match acquire_token now acquireResp with
    | .ok s3 => ⟨.ok (), s3, [.acquireCall]⟩
    | .error e => ⟨.error e, s, [.acquireCall]⟩

/-- True for the refresh outcomes the source treats as soft failures: a
non-200 status or a network exception. -/
def refreshFailed : TokenResponse → Bool
  | .success _ _ => false
  | .httpError _ => true
  | .netExn _ => true

/-- The class names defined at top level of cloudconnexa/utils/errors.py. -/
def utilsErrorsClasses : List String :=
  ["CloudConnexaError", "ConfigurationError", "AuthenticationError",
   "APIError", "VersionCompatibilityError", "ResourceNotFoundError"]

/-- The class names defined at top level of cloudconnexa/exceptions.py. -/
def exceptionsClasses : List String :=
  ["CloudConnexaError", "APIError", "AuthenticationError",
   "ResourceNotFoundError", "ValidationError", "RateLimitError"]

/-- The names cloudconnexa/client/base.py imports from
cloudconnexa.utils.errors (base.py lines 17-24). -/
def baseErrorImports : List String :=
  ["APIError", "ConfigurationError", "AuthenticationError",
   "ResourceNotFoundError", "ValidationError", "RateLimitError"]

/-- Embedding of NetworkService._default_pagination (networks/service.py
lines 31-32; users/service.py has the identical definition) as the
dictionary it builds, in insertion order. -/
def default_pagination (total per_page : Int) : List (String × J) :=
  [("total", .num total), ("page", .num 1),
   ("per_page", .num per_page), ("has_more", .bool false)]

/-- Python dict.setdefault applied for each default key in order (the merge
loop of networks/service.py lines 57-59): a key already present keeps its
value, a missing key is appended with the default value. -/
def setdefaults (pagination defaults : List (String × J)) :
    List (String × J) :=
  defaults.foldl
    (fun acc kv => if acc.any (fun x => x.1 = kv.1) then acc else acc ++ [kv])
    pagination

/-- Embedding of the response-shape normalization of NetworkService.list
(networks/service.py lines 48-61; users/service.py lines 101-117 is the
identical logic): a bare array maps each item through the resource
constructor and synthesizes the default pagination from the length; an
object maps its data array (missing key treated as empty; the source would
raise on a non-array data value, a case no claim touches, treated as empty
here) and fills missing pagination keys from the defaults; any other shape
yields an empty envelope. The constructor is a parameter, as Network and
User are in the source. -/
def normalizeListBody {α : Type} (ctor : J → α) (data : J) :
    List α × List (String × J) :=
  match data with
  | .arr items =>
    (items.map ctor, default_pagination items.length items.length)
  | .obj fields =>
    let dataItems :=
      match (J.obj fields).getField "data" with
      | some (.arr items) => items
      | _ => []
    let upstream :=
      match (J.obj fields).getField "pagination" with
      | some (.obj p) => p
      | _ => []
    (dataItems.map ctor,
     setdefaults upstream
       (default_pagination dataItems.length dataItems.length))
  | _ => ([], default_pagination 0 0)

/-- A value parse_datetime returns: a datetime, identified by its instant,
or a string. -/
inductive PyVal where
  | dt : Int → PyVal
  | str : String → PyVal
deriving Repr, DecidableEq

/-- Python str.endswith for a non-empty suffix: the suffix character list is
a suffix of the character list of the string. -/
def py_endswith (s suffix : String) : Bool :=
  suffix.data.isSuffixOf s.data

/-- Python value[:-1]: the string without its last character. -/
def py_dropLast (s : String) : String :=
  ⟨s.data.dropLast⟩

/-- Embedding of parse_datetime (networks/service.py lines 8-17 and
users/service.py lines 20-30) on a string argument. The fromiso parameter
models datetime.fromisoformat: some instant when the string parses as
ISO-8601, none when fromisoformat raises. Faithful detail: the source
rebinds value to the Zulu-rewritten string inside the try block before
calling fromisoformat, so the except branch returns the rewritten string,
not the original argument. -/
def parse_datetime (fromiso : String → Option Int) (value : String) : PyVal :=
  let value2 :=
    if py_endswith value "Z" then py_dropLast value ++ "+00:00" else value
  match fromiso value2 with
  | some d => .dt d
  | none => .str value2

/-- A concrete model of datetime.fromisoformat restricted to the strings the
theorems below evaluate: the ISO-8601 string for 2024-01-02T03:04:05+00:00
parses to its Unix instant; the string oops+00:00 is not ISO-8601 and fails. -/
def fromisoExample : String → Option Int := fun s =>
  if s = "2024-01-02T03:04:05+00:00" then some 1704164645 else none

/-- Projection of the retry-after argument out of a raised RateLimitError:
some hint when the result is a rate-limit error, none otherwise. -/
def raisedRetryAfter : Except DispatchError RequestResult → Option (Option Int)
  | .error (.rateLimitError _ ra) => some ra
  | _ => none

/-- Projection of the original_error argument out of a raised APIError. -/
def apiOriginalError : Except DispatchError RequestResult → Option (Option String)
  | .error (.apiError _ oe) => some oe
  | _ => none

/-- The 429 response of the spec scenario: header Retry-After 60, JSON error
body without a retry_after field. -/
def response429WithHeader : HttpResponse :=
  ⟨429, some (J.obj [("error", J.obj [("code", J.str "rate_limit_exceeded")])]),
   some "60"⟩

end CloudConnexa

namespace CloudConnexa

/-- Claim C1: the Dispatcher classifies every response in this priority
order: 204 returns the sentinel success value True; 429 raises the rate-limit
error; 404 raises the resource-not-found error; 400 raises the validation
error; any other status of at least 400 raises the generic API error whose
message comes from error.message of the JSON body when present; any non-error
status returns the parsed JSON body, the empty object when the body is empty.
In particular 429 and 404 are classified before the generic fallback for
statuses of at least 400. -/
theorem dispatch_classification_priority (path : String) (r : HttpResponse) :
    (r.status_code = 204 →
      dispatchRequest path (.ok r) = .ok (.boolResult true)) ∧
    (r.status_code = 429 →
      dispatchRequest path (.ok r) =
        .error (.rateLimitError "Rate limit exceeded" none)) ∧
    (r.status_code = 404 →
      dispatchRequest path (.ok r) =
        .error (.resourceNotFoundError ("Resource not found: " ++ path)
          (lastSegment path) 404)) ∧
    (r.status_code = 400 →
      dispatchRequest path (.ok r) = .error (.validationError "Invalid request")) ∧
    (400 ≤ r.status_code → r.status_code ≠ 429 → r.status_code ≠ 404 →
      r.status_code ≠ 400 →
      dispatchRequest path (.ok r) =
        .error (.apiError ("API request failed: " ++ errMessage r.body) none)) ∧
    (∀ b e m, r.body = some b → b.getField "error" = some e →
      e.getField "message" = some (.str m) → errMessage r.body = m) ∧
    (r.status_code < 400 → r.status_code ≠ 204 →
      dispatchRequest path (.ok r) = .ok (.jsonResult (r.body.getD (J.obj [])))) ∧
    (r.body = none → r.status_code < 400 → r.status_code ≠ 204 →
      dispatchRequest path (.ok r) = .ok (.jsonResult (J.obj []))) := by
  refine ⟨?_, ?_, ?_, ?_, ?_, ?_, ?_, ?_⟩
  · intro h; simp [dispatchRequest, h]
  · intro h; simp [dispatchRequest, h]
  · intro h; simp [dispatchRequest, h]
  · intro h; simp [dispatchRequest, h]
  · intro h1 h2 h3 h4
    have h5 : r.status_code ≠ 204 := by omega
    simp [dispatchRequest, h1, h2, h3, h4, h5]
  · intro b e m hb he hm
    simp [errMessage, hb, he, hm]
  · intro h1 h2
    have h3 : r.status_code ≠ 429 := by omega
    have h4 : r.status_code ≠ 404 := by omega
    have h5 : r.status_code ≠ 400 := by omega
    have h6 : ¬ (400 ≤ r.status_code) := by omega
    simp [dispatchRequest, h1, h2, h3, h4, h5, h6]
  · intro hb h1 h2
    have h3 : r.status_code ≠ 429 := by omega
    have h4 : r.status_code ≠ 404 := by omega
    have h5 : r.status_code ≠ 400 := by omega
    have h6 : ¬ (400 ≤ r.status_code) := by omega
    simp [dispatchRequest, hb, h1, h2, h3, h4, h5, h6]

/-- Witness for C1: the classification theorem evaluated on one concrete
response per branch. -/
theorem dispatch_classification_priority_witness :
    dispatchRequest "/networks/abc" (.ok ⟨204, none, none⟩) =
      .ok (.boolResult true) ∧
    dispatchRequest "/networks/abc" (.ok ⟨429, none, none⟩) =
      .error (.rateLimitError "Rate limit exceeded" none) ∧
    dispatchRequest "/networks/abc" (.ok ⟨404, none, none⟩) =
      .error (.resourceNotFoundError "Resource not found: /networks/abc" "abc" 404) ∧
    dispatchRequest "/networks/abc" (.ok ⟨400, none, none⟩) =
      .error (.validationError "Invalid request") ∧
    dispatchRequest "/networks/abc"
        (.ok ⟨500, some (J.obj [("error", J.obj [("message", J.str "boom")])]), none⟩) =
      .error (.apiError "API request failed: boom" none) ∧
    errMessage (some (J.obj [("error", J.obj [("message", J.str "boom")])])) = "boom" ∧
    dispatchRequest "/networks/abc" (.ok ⟨200, none, none⟩) =
      .ok (.jsonResult (J.obj [])) :=
  ⟨(dispatch_classification_priority "/networks/abc" ⟨204, none, none⟩).1 rfl,
   (dispatch_classification_priority "/networks/abc" ⟨429, none, none⟩).2.1 rfl,
   (dispatch_classification_priority "/networks/abc" ⟨404, none, none⟩).2.2.1 rfl,
   (dispatch_classification_priority "/networks/abc" ⟨400, none, none⟩).2.2.2.1 rfl,
   (dispatch_classification_priority "/networks/abc"
     ⟨500, some (J.obj [("error", J.obj [("message", J.str "boom")])]), none⟩).2.2.2.2.1
     (by decide) (by decide) (by decide) (by decide),
   (dispatch_classification_priority "/networks/abc"
     ⟨500, some (J.obj [("error", J.obj [("message", J.str "boom")])]), none⟩).2.2.2.2.2.1
     (J.obj [("error", J.obj [("message", J.str "boom")])])
     (J.obj [("message", J.str "boom")]) "boom" rfl rfl rfl,
   (dispatch_classification_priority "/networks/abc" ⟨200, none, none⟩).2.2.2.2.2.2.1
     (by decide) (by decide)⟩

/-- Claim C6: every 404 response makes the Dispatcher raise a
resource-not-found error whose resource identifier is the last
slash-separated segment of the request path and whose status code is 404. -/
theorem dispatch_404_resource_id (path : String) (r : HttpResponse)
    (h : r.status_code = 404) :
    dispatchRequest path (.ok r) =
      .error (.resourceNotFoundError ("Resource not found: " ++ path)
        ⟨(py_split '/' path.data).getLastD []⟩ 404) := by
  simp [dispatchRequest, h, lastSegment]

/-- Witness for C6: the spec scenario, a request to /networks/abc answered
with 404 and a JSON error body, yields resource_id abc and status_code 404. -/
theorem dispatch_404_resource_id_witness :
    dispatchRequest "/networks/abc"
        (.ok ⟨404, some (J.obj [("error", J.obj [("code", J.str "not_found")])]), none⟩) =
      .error (.resourceNotFoundError "Resource not found: /networks/abc" "abc" 404) :=
  dispatch_404_resource_id "/networks/abc"
    ⟨404, some (J.obj [("error", J.obj [("code", J.str "not_found")])]), none⟩ rfl

/-- Counterexample to claim C2 as stated: a 429 response with header
Retry-After 60 and no retry_after field in the JSON body makes the Dispatcher
raise its rate-limit error with no retry-after value at all, although the
hint the spec describes would be 60; so the raised retry-after differs from
the claimed one. -/
theorem dispatch_429_counterexample :
    raisedRetryAfter (dispatchRequest "/networks" (.ok response429WithHeader)) =
      some none ∧
    specRetryAfterHint response429WithHeader = some 60 ∧
    some (none : Option Int) ≠ some (some (60 : Int)) := by
  refine ⟨rfl, ?_, by decide⟩
  rfl

/-- Claim C2, amended: every 429 response makes the Dispatcher raise a
rate-limit error with message Rate limit exceeded and no retry-after value;
the retry_after field of the JSON body and the Retry-After header are both
ignored by the Dispatcher (extraction of a retry-after hint exists only in
the resource-service layer, not in the Dispatcher). -/
theorem dispatch_429_no_retry_after (path : String) (r : HttpResponse)
    (h : r.status_code = 429) :
    dispatchRequest path (.ok r) =
      .error (.rateLimitError "Rate limit exceeded" none) := by
  simp [dispatchRequest, h]

/-- Witness for the amended C2: the spec scenario response evaluated through
the Dispatcher. -/
theorem dispatch_429_no_retry_after_witness :
    dispatchRequest "/networks" (.ok response429WithHeader) =
      .error (.rateLimitError "Rate limit exceeded" none) :=
  dispatch_429_no_retry_after "/networks" response429WithHeader rfl

/-- Counterexample to claim C9 as stated: a transport exception with text
Connection timed out is wrapped into an APIError whose original_error
argument is none, not the original exception. -/
theorem dispatch_netexn_counterexample :
    apiOriginalError (dispatchRequest "/networks" (.exn "Connection timed out")) =
      some none ∧
    some (none : Option String) ≠ some (some "Connection timed out") := by
  exact ⟨rfl, by decide⟩

/-- Claim C9, amended: every network-level exception raised while sending is
wrapped into a generic API error whose message is Request failed followed by
the text of the original exception; the original exception is not attached as
the original_error of the raised APIError, which is none. -/
theorem dispatch_netexn_wraps_message (path e : String) :
    dispatchRequest path (.exn e) =
      .error (.apiError ("Request failed: " ++ e) none) := rfl

/-- Claim C4: when the state holds a token and an expiry with now strictly
below the expiry minus the 30-second buffer, ensure_authenticated returns at
once with the state untouched and zero network calls; an absent token or
expiry, or a now at or past the expiry minus 30, makes the token invalid. -/
theorem ensure_valid_token_no_network (now : Int) (s : AuthState)
    (rr ar : TokenResponse) :
    (∀ t e, s.token = some t → s.token_expiry = some e → t ≠ "" → e ≠ 0 →
      now < e - 30 →
      ensure_authenticated now s rr ar = ⟨.ok (), s, []⟩) ∧
    (s.token = none ∨ s.token_expiry = none → is_token_valid now s = false) ∧
    (∀ e, s.token_expiry = some e → e - 30 ≤ now →
      is_token_valid now s = false) := by
  refine ⟨?_, ?_, ?_⟩
  · intro t e ht he hne hnz hlt
    have hv : is_token_valid now s = true := by
      simp [is_token_valid, pyTruthyStr, pyTruthyNum, ht, he, hnz,
        String.isEmpty_iff, hne]
      omega
    simp [ensure_authenticated, hv]
  · rintro (h | h) <;> simp [is_token_valid, pyTruthyStr, pyTruthyNum, h]
  · intro e he hle
    unfold is_token_valid
    rw [he]
    split
    · rfl
    · simp only [Option.getD_some, decide_eq_false_iff_not]
      omega

/-- Witness for C4: a fresh token skips the network; a missing token and an
expired token are invalid. -/
theorem ensure_valid_token_no_network_witness :
    ensure_authenticated 100 ⟨some "tok", some 1000⟩ (.httpError 500)
        (.httpError 500) = ⟨.ok (), ⟨some "tok", some 1000⟩, []⟩ ∧
    is_token_valid 0 ⟨none, some 100⟩ = false ∧
    is_token_valid 100 ⟨some "tok", some 120⟩ = false :=
  ⟨(ensure_valid_token_no_network 100 ⟨some "tok", some 1000⟩ (.httpError 500)
      (.httpError 500)).1 "tok" 1000 rfl rfl (by decide) (by decide) (by decide),
   (ensure_valid_token_no_network 0 ⟨none, some 100⟩ (.httpError 500)
      (.httpError 500)).2.1 (Or.inl rfl),
   (ensure_valid_token_no_network 100 ⟨some "tok", some 120⟩ (.httpError 500)
      (.httpError 500)).2.2 120 rfl (by decide)⟩

/-- Claim C5: when the stored token is present but invalid and the refresh
attempt fails with a non-200 status or a network exception, the failure never
propagates: the outcome of ensure_authenticated is exactly the outcome of the
full acquisition that follows, with both network calls made in order; in
particular a failed refresh followed by a successful acquisition returns
normally with the stored token updated. -/
theorem ensure_refresh_soft_failure (now : Int) (s : AuthState)
    (rr ar : TokenResponse)
    (htok : pyTruthyStr s.token = true)
    (hinv : is_token_valid now s = false)
    (hfail : refreshFailed rr = true) :
    ((ensure_authenticated now s rr ar).outcome =
      match acquire_token now ar with
      | .ok _ => .ok ()
      | .error e => .error e) ∧
    (ensure_authenticated now s rr ar).calls = [.refreshCall, .acquireCall] ∧
    (∀ t ei, ar = .success t ei →
      ensure_authenticated now s rr ar =
        ⟨.ok (), ⟨some t, some (now + ei)⟩, [.refreshCall, .acquireCall]⟩) := by
  cases rr with
  | success t ei => simp [refreshFailed] at hfail
  | httpError st =>
    refine ⟨?_, ?_, ?_⟩ <;>
      cases ar <;>
        simp [ensure_authenticated, hinv, htok, refresh_token, acquire_token]
  | netExn ex =>
    refine ⟨?_, ?_, ?_⟩ <;>
      cases ar <;>
        simp [ensure_authenticated, hinv, htok, refresh_token, acquire_token]

/-- Witness for C5: the spec scenario, a refresh answered 401 followed by a
successful acquisition; ensure_authenticated returns normally with the token
updated and both calls made. -/
theorem ensure_refresh_soft_failure_witness :
    ensure_authenticated 0 ⟨some "old", some 10⟩ (.httpError 401)
        (.success "new" 3600) =
      ⟨.ok (), ⟨some "new", some 3600⟩, [.refreshCall, .acquireCall]⟩ :=
  (ensure_refresh_soft_failure 0 ⟨some "old", some 10⟩ (.httpError 401)
    (.success "new" 3600) (by decide) (by decide) rfl).2.2 "new" 3600 rfl

/-- Claim C10: whenever ensure_authenticated raises, the stored token state
is exactly what it was before the call; failed refresh attempts return the
state untouched, and only a 200 response with its parsed body mutates it. -/
theorem ensure_failure_preserves_state (now : Int) (s : AuthState)
    (rr ar : TokenResponse) :
    (∀ e, (ensure_authenticated now s rr ar).outcome = .error e →
      (ensure_authenticated now s rr ar).state = s) ∧
    (∀ st, refresh_token now s (.httpError st) = (s, false)) ∧
    (∀ ex, refresh_token now s (.netExn ex) = (s, false)) := by
  refine ⟨?_, fun st => rfl, fun ex => rfl⟩
  intro e h
  by_cases hv : is_token_valid now s
  · simp [ensure_authenticated, hv] at h
  · by_cases ht : pyTruthyStr s.token <;>
      cases rr <;> cases ar <;>
        simp_all [ensure_authenticated, refresh_token, acquire_token]

/-- Witness for C10: a client with no stored token whose acquisition is
answered 500 raises and leaves the state empty as it was; failed refreshes
leave it untouched. -/
theorem ensure_failure_preserves_state_witness :
    (ensure_authenticated 0 ⟨none, none⟩ (.httpError 500)
      (.httpError 500)).state = ⟨none, none⟩ ∧
    refresh_token 0 ⟨none, none⟩ (.httpError 401) = (⟨none, none⟩, false) ∧
    refresh_token 0 ⟨none, none⟩ (.netExn "boom") = (⟨none, none⟩, false) :=
  ⟨(ensure_failure_preserves_state 0 ⟨none, none⟩ (.httpError 500)
      (.httpError 500)).1
      (.authenticationError "Failed to acquire token: 500" (some 500) none) rfl,
   (ensure_failure_preserves_state 0 ⟨none, none⟩ (.httpError 500)
      (.httpError 500)).2.1 401,
   (ensure_failure_preserves_state 0 ⟨none, none⟩ (.httpError 500)
      (.httpError 500)).2.2 "boom"⟩

/-- Claim C3, on the code: base.py imports ValidationError and RateLimitError
from cloudconnexa.utils.errors, but that module defines neither name; both
are defined only in cloudconnexa.exceptions, so loading the Dispatcher module
fails with an ImportError before any request can be classified. -/
theorem base_error_imports_missing :
    "ValidationError" ∈ baseErrorImports ∧
    "RateLimitError" ∈ baseErrorImports ∧
    "ValidationError" ∉ utilsErrorsClasses ∧
    "RateLimitError" ∉ utilsErrorsClasses ∧
    "ValidationError" ∈ exceptionsClasses ∧
    "RateLimitError" ∈ exceptionsClasses := by
  decide

/-- Claim C7: a list body that is a bare array of N items normalizes to the N
items mapped through the resource constructor together with pagination total
N, page 1, per_page N, has_more false; the empty array yields the empty data
list with total 0, page 1, per_page 0, has_more false. -/
theorem normalize_bare_array {α : Type} (ctor : J → α) (items : List J) :
    (normalizeListBody ctor (.arr items)).1 = items.map ctor ∧
    (normalizeListBody ctor (.arr items)).2.lookup "total" =
      some (.num items.length) ∧
    (normalizeListBody ctor (.arr items)).2.lookup "page" = some (.num 1) ∧
    (normalizeListBody ctor (.arr items)).2.lookup "per_page" =
      some (.num items.length) ∧
    (normalizeListBody ctor (.arr items)).2.lookup "has_more" =
      some (.bool false) ∧
    normalizeListBody ctor (.arr []) =
      ([], [("total", .num 0), ("page", .num 1), ("per_page", .num 0),
            ("has_more", .bool false)]) :=
  ⟨rfl, rfl, rfl, rfl, rfl, rfl⟩

/-- Counterexample to claim C8 as stated: the string oopsZ fails to parse as
ISO-8601, and parse_datetime returns the rewritten string oops+00:00, not the
input unchanged, because the source rebinds the value before the parse
attempt inside the try block. -/
theorem parse_datetime_counterexample :
    parse_datetime fromisoExample "oopsZ" = .str "oops+00:00" ∧
    "oops+00:00" ≠ "oopsZ" := by
  exact ⟨rfl, by decide⟩

/-- Claim C8, amended: a string ending in Z parses exactly as the string with
the suffix +00:00 substituted for the trailing Z, whatever instants the
ISO-8601 parser assigns (so both reach the same instant whenever parsing
succeeds); a failing parse returns a string rather than raising, namely the
input unchanged when it does not end in Z, and the input with +00:00
substituted for the trailing Z otherwise. -/
theorem parse_datetime_roundtrip (fromiso : String → Option Int) (s : String) :
    (py_endswith s "Z" = true →
      parse_datetime fromiso s =
        parse_datetime fromiso (py_dropLast s ++ "+00:00")) ∧
    (py_endswith s "Z" = false → fromiso s = none →
      parse_datetime fromiso s = .str s) ∧
    (py_endswith s "Z" = true → fromiso (py_dropLast s ++ "+00:00") = none →
      parse_datetime fromiso s = .str (py_dropLast s ++ "+00:00")) := by
  have hz : py_endswith (py_dropLast s ++ "+00:00") "Z" = false := by
    simp only [py_endswith, Bool.eq_false_iff]
    intro h
    have h2 := List.isSuffixOf_iff_suffix.mp h
    obtain ⟨u, hu⟩ := h2
    have h3 := congrArg List.getLast? hu
    rw [String.data_append] at h3
    rw [List.getLast?_concat] at h3
    have h5 : ((py_dropLast s).data ++ ("+00:00".data : List Char)).getLast? =
        some '0' := by
      rw [show ("+00:00".data : List Char) =
        '+' :: '0' :: '0' :: ':' :: '0' :: '0' :: [] from rfl]
      rw [List.getLast?_append_cons]
      rfl
    rw [h5] at h3
    exact absurd (Option.some.inj h3) (by decide)
  refine ⟨?_, ?_, ?_⟩
  · intro h
    simp [parse_datetime, h, hz]
  · intro h hf
    simp [parse_datetime, h, hf]
  · intro h hf
    simp [parse_datetime, h, hz, hf]

/-- Witness for the amended C8: the Zulu timestamp and its +00:00 equivalent
parse to the same instant, and two failing strings come back as strings. -/
theorem parse_datetime_roundtrip_witness :
    parse_datetime fromisoExample "2024-01-02T03:04:05Z" =
      parse_datetime fromisoExample "2024-01-02T03:04:05+00:00" ∧
    parse_datetime fromisoExample "2024-01-02T03:04:05Z" = .dt 1704164645 ∧
    parse_datetime fromisoExample "oops" = .str "oops" ∧
    parse_datetime fromisoExample "oopsZ" = .str "oops+00:00" := by
  refine ⟨(parse_datetime_roundtrip fromisoExample "2024-01-02T03:04:05Z").1
      (by decide), rfl,
    (parse_datetime_roundtrip fromisoExample "oops").2.1 (by decide) rfl,
    (parse_datetime_roundtrip fromisoExample "oopsZ").2.2 (by decide) ?_⟩
  rfl

end CloudConnexa
